import Mathlib

/-!
Shallow embedding of the core of the terminal hacking game
(`terminal.py`, `programs/hexedit.py`): the hex-editor puzzle program,
the terminal command dispatch with dependency gating, the countdown
timer and the command history, together with proofs and refutations of
the specified properties.
-/

set_option maxRecDepth 10000

/-- Python exceptions that the modelled code can raise.  `badInput` is the
structured signal of `programs.program.BadInput`; the others are builtin
Python exceptions. -/
inductive PyErr where
  | badInput (msg : String)
  | valueError (msg : String)
  | indexError
  | keyError
  deriving DecidableEq, Repr

/-- Model of `line.lstrip().lower()`: drop leading whitespace and lowercase
the rest (the game only feeds ASCII input lines). -/
def pyLstripLower (s : String) : String :=
  String.mk ((s.toList.dropWhile Char.isWhitespace).map Char.toLower)

/-- Value of one character as a digit in the given base (input is already
lowercased), if it is one. -/
def pyDigit (base : Nat) (c : Char) : Option Nat :=
  if c.isDigit then
    let d := c.toNat - 48
    if d < base then some d else none
  else if base = 16 && 97 ≤ c.toNat && c.toNat ≤ 102 then
    some (c.toNat - 87)
  else none

/-- Accumulate the digits of a literal; fails on the first non-digit. -/
def pyDigitsAux (base : Nat) (acc : Nat) : List Char → Option Nat
  | [] => some acc
  | c :: cs =>
    match pyDigit base c with
    | some d => pyDigitsAux base (acc * base + d) cs
    | none => none

/-- Strip whitespace from both ends of a character list. -/
def pyStrip (cs : List Char) : List Char :=
  ((cs.dropWhile Char.isWhitespace).reverse.dropWhile Char.isWhitespace).reverse

/-- Model of Python `int(s, base)` (base 10 or 16) on a lowercased string:
surrounding whitespace is ignored, an optional sign is allowed, and for
base 16 an optional `0x` prefix.  Underscore digit separators are not
modelled (no claim depends on them).  Returns `none` where Python raises
`ValueError`. -/
def pyInt (base : Nat) (s : String) : Option Int :=
  let cs := pyStrip s.toList
  let signed : Bool × List Char :=
    match cs with
    | c :: rest =>
      if c = '-' then (true, rest)
      else if c = '+' then (false, rest)
      else (false, cs)
    | [] => (false, [])
  let body : List Char :=
    if base = 16 then
      match signed.2 with
      | a :: b :: rest => if a = '0' && b = 'x' then rest else signed.2
      | _ => signed.2
    else signed.2
  match body with
  | [] => none
  | _ => (pyDigitsAux base 0 body).map (fun n => if signed.1 then -(n : Int) else (n : Int))

/-- Python `int(line)` as used for the column number. -/
def pyParseInt (s : String) : Option Int := pyInt 10 s

/-- Python `int(line, 16)` as used for the cell value. -/
def pyParseHex (s : String) : Option Int := pyInt 16 s

/-- Normalisation of a Python sequence index: negative indices count
from the end. -/
def pyNorm (n : Nat) (i : Int) : Int :=
  if i < 0 then (n : Int) + i else i

/-- Python list indexing `l[i]`: negative indices count from the end and
out-of-range indices raise `IndexError`. -/
def pyIdx {α : Type} (l : List α) (i : Int) : Except PyErr α :=
  if 0 ≤ pyNorm l.length i then
    match l.get? (pyNorm l.length i).toNat with
    | some a => .ok a
    | none => .error .indexError
  else .error .indexError

/-- Python tuple unpacking `a, b, c, d = l` of a list into four targets,
which raises `ValueError` unless the list has exactly four elements. -/
def pyUnpack4 (l : List Int) : Except PyErr (Int × Int × Int × Int) :=
  match l with
  | [a, b, c, d] => .ok (a, b, c, d)
  | _ => .error (.valueError "not enough values to unpack")

/-! ## The hex-editor puzzle (`programs/hexedit.py`)

The editor keeps `_start_data` (reference table) and `_end_data` (edited
table).  In the source, `start()` sets `self._end_data =
list(self._start_data)`: a shallow copy, so both lists contain references
to the same row objects.  The model makes the references explicit: `heap`
holds the row objects, while `startTab` and `endTab` are the two lists of
references (indices into `heap`). -/

/-- The states of `HexEditor.States`. -/
inductive HEState where
  | QUERY_ROW
  | ENTER_COL
  | ENTER_VAL
  | FINISHED
  deriving DecidableEq, Repr

/-- The mutable state of a `HexEditor` instance together with the effects
it has on its terminal (`outputs`, newest first, and the freeze call).
Display-only rendering (`_output_data`, prompts) is not modelled. -/
structure HexEditor where
  completed : Bool
  row : Nat
  col : Int
  state : HEState
  heap : List (List Int)
  startTab : List Nat
  endTab : List Nat
  outputs : List String
  frozen : Option Int
  deriving DecidableEq, Repr

/-- The state established by `HexEditor.__init__`. -/
def HexEditor.init : HexEditor :=
  { completed := false, row := 0, col := 0, state := .QUERY_ROW,
    heap := [], startTab := [], endTab := [], outputs := [], frozen := none }

namespace HexEditor

/-- Model of `HexEditor.start`.  The random table produced by
`_generate_data` is passed in as `data`; `self._end_data =
list(self._start_data)` is the shallow copy: a fresh outer list holding
the same row references. -/
def start (h : HexEditor) (data : List (List Int)) : HexEditor :=
  { h with row := 0, col := 0, state := .QUERY_ROW,
           heap := data,
           startTab := List.range data.length,
           endTab := List.range data.length }

/-- Dereference a table of row references into the list of rows it
denotes (the value a Python reader of `_start_data` or `_end_data`
observes). -/
def tableOf (h : HexEditor) (tab : List Nat) : List (List Int) :=
  tab.map (fun i => h.heap.getD i [])

/-- Read one cell of a table through its row reference. -/
def readCell (h : HexEditor) (tab : List Nat) (r c : Nat) : Option Int :=
  (tab.get? r).bind (fun p => (h.heap.get? p).bind (fun rw => rw.get? c))

/-- Model of `len(self._start_data[0])`: dereference the first row
reference of the reference table. -/
def rowWidth (h : HexEditor) : Except PyErr Nat :=
  match pyIdx h.startTab 0 with
  | .error e => .error e
  | .ok p =>
    match h.heap.get? p with
    | some r => .ok r.length
    | none => .error .indexError

/-- Result of the per-row checks inside `_data_correct`: either the
function returns `False` at once, or it goes on with the given
`expect_edit` flag. -/
inductive RowCheck where
  | fail
  | cont (expect : Bool)
  deriving DecidableEq, Repr

/-- Rules (d), (e), (f), (x) of `_data_correct`: the first row, or a row
whose previous row was not edited.  Note the source filters
`enumerate(start)` on `i % 2 == 1`, that is on odd positions. -/
def checkFirstBranch (s e : List Int) : Except PyErr RowCheck := do
  let s0 ← pyIdx s 0
  if s0 < 7 then
    let v ← pyIdx e s0
    if v ≠ 0 then pure .fail else pure (.cont true)
  else if 0 < s.count 0 then
    let v ← pyIdx e ((s.indexOf 0 : Nat) : Int)
    if v ≠ 15 then pure .fail else pure (.cont true)
  else
    let odds := s.enum.filter (fun p => p.1 % 2 = 1)
    if 3 < odds.length then
      let p ← pyIdx odds 0
      let ev ← pyIdx e (p.1 : Int)
      let sv ← pyIdx s (p.1 : Int)
      if ev ≠ sv - 1 then pure .fail else pure (.cont true)
    else pure (.cont false)

/-- Rule (j) of `_data_correct`: the last row when the previous row was
edited; `end[-1]` must equal the running edit count and `end[:-1]` must
equal `start[:-1]`. -/
def checkLastBranch (s e : List Int) (edits : Int) : Except PyErr RowCheck := do
  let last ← pyIdx e (-1)
  if last ≠ edits ∨ e.dropLast ≠ s.dropLast then pure .fail else pure (.cont true)

/-- Rules (g), (h), (i), (x) of `_data_correct`: a middle row whose
previous row was edited. -/
def checkMiddleBranch (s e : List Int) (eIdx eOld eNew : Int) :
    Except PyErr RowCheck := do
  let sl ← pyIdx s (-1)
  if sl < 7 then
    let v ← pyIdx e sl
    if v ≠ eOld then pure .fail else pure (.cont true)
  else if 0 < s.count 15 then
    let v ← pyIdx e ((s.indexOf 15 : Nat) : Int)
    if v ≠ eIdx then pure .fail else pure (.cont true)
  else if 0 < s.count eNew then
    let v ← pyIdx e ((s.indexOf eNew : Nat) : Int)
    if v ≠ 0 then pure .fail else pure (.cont true)
  else pure (.cont false)

/-- First index at which a row pair differs,
`[i for i, (s, e) in enumerate(zip(start, end)) if s != e][0]`; raises
`IndexError` when the zipped prefixes agree. -/
def rowDiffIdx (s e : List Int) : Except PyErr Nat :=
  match ((s.zip e).enum.filter (fun p => p.2.1 != p.2.2)).head? with
  | some p => .ok p.1
  | none => .error .indexError

/-- The loop of `_data_correct` over `enumerate(zip(start_data,
end_data))`, carrying `edited_previous`, `edits`, `edited_idx`,
`edited_old` and `edited_new`; `n` is `len(self._start_data)`. -/
def dataLoop (n : Nat) :
    List (List Int × List Int) → Nat → Bool → Int → Int → Int → Int →
    Except PyErr Bool
  | [], _, _, _, _, _, _ => .ok true
  | (s, e) :: rest, idx, prev, edits, eIdx, eOld, eNew => do
    let rc ←
      if idx = 0 ∨ prev = false then checkFirstBranch s e
      else if idx + 1 = n then checkLastBranch s e edits
      else checkMiddleBranch s e eIdx eOld eNew
    match rc with
    | .fail => pure false
    | .cont expect =>
      if s = e then
        dataLoop n rest (idx + 1) false edits eIdx eOld eNew
      else do
        let d ← rowDiffIdx s e
        let eOld2 ← pyIdx s (d : Int)
        let eNew2 ← pyIdx e (d : Int)
        if expect = false then pure false
        else dataLoop n rest (idx + 1) true (edits + 1) (d : Int) eOld2 eNew2

/-- Model of `HexEditor._data_correct`.  Its second statement is
`edits, edited_idx, edited_old, edited_new = [0, 0, 0]`: a tuple
unpacking of a three-element list into four targets. -/
def dataCorrect (s e : List (List Int)) : Except PyErr Bool :=
  match pyUnpack4 [0, 0, 0] with
  | .error err => .error err
  | .ok (edits, eIdx, eOld, eNew) =>
    dataLoop s.length (s.zip e) 0 false edits eIdx eOld eNew

/-- The failure line output by `_check_finished`.  Modelled from the spec:
the `failure_prefix` attribute comes from the `programs.program` base
class, which is not part of the sources; the spec only calls the line a
failure-prefixed message, so the prefix is left out of the model. -/
def failureLine : String := "corruption detected in system file, repairing!"

/-- Model of `HexEditor._check_finished` (including the `_FREEZE_TIME`
penalty of 5000 ms passed to `terminal.freeze`). -/
def check_finished (h : HexEditor) : HexEditor × Option PyErr :=
  if h.row = h.startTab.length then
    let h1 := { h with state := .FINISHED }
    match dataCorrect (tableOf h1 h1.startTab) (tableOf h1 h1.endTab) with
    | .error e => (h1, some e)
    | .ok true => ({ h1 with completed := true }, none)
    | .ok false =>
      ({ h1 with outputs := failureLine :: h1.outputs, frozen := some 5000 }, none)
  else (h, none)

/-- The assignment `self._end_data[self._row][self._col] = v`: fetch the
row object referenced by `_end_data[_row]` and update it in the heap
(which also updates every other reference to that row object). -/
def writeCell (h : HexEditor) (v : Int) : Except PyErr HexEditor :=
  match pyIdx h.endTab (h.row : Int) with
  | .error e => .error e
  | .ok p =>
    match h.heap.get? p with
    | none => .error .indexError
    | some robj =>
      if 0 ≤ pyNorm robj.length h.col ∧
          (pyNorm robj.length h.col).toNat < robj.length then
        .ok { h with heap := h.heap.set p (robj.set (pyNorm robj.length h.col).toNat v) }
      else .error .indexError

/-- Python `line.startswith('y')` for the one-character prefix tested in
QUERY_ROW: the first character of the line is `y`. -/
def startsWithY (s : String) : Bool :=
  match s.toList with
  | c :: _ => c = 'y'
  | [] => false

/-- The state-machine body of `HexEditor.text_input` (its if/elif chain),
acting on the already stripped-and-lowercased line.  The second component
is the exception it raises, if any; the first component is the state of
the object at that point (Python keeps mutations made before a raise:
in ENTER_COL the column cursor is assigned before the range check). -/
def textStep (h : HexEditor) (line : String) : HexEditor × Option PyErr :=
  match h.state with
  | .QUERY_ROW =>
    if startsWithY line then ({ h with state := .ENTER_COL }, none)
    else ({ h with row := h.row + 1 }, none)
  | .ENTER_COL =>
    match pyParseInt line with
    | none => (h, some (.badInput "Not a number"))
    | some n =>
      if n < 0 then ({ h with col := n }, some (.badInput "Column out of range"))
      else
        match rowWidth { h with col := n } with
        | .error e => ({ h with col := n }, some e)
        | .ok w =>
          if (w : Int) ≤ n then
            ({ h with col := n }, some (.badInput "Column out of range"))
          else ({ h with col := n, state := .ENTER_VAL }, none)
  | .ENTER_VAL =>
    if line = "" then ({ h with state := .QUERY_ROW }, none)
    else
      match pyParseHex line with
      | none => (h, some (.badInput "Not a number"))
      | some v =>
        match writeCell h v with
        | .error e => (h, some e)
        | .ok h1 => ({ h1 with row := h1.row + 1, state := .QUERY_ROW }, none)
  | .FINISHED => (h, none)

/-- Model of `HexEditor.text_input`: strip and lowercase the line, run
the state-machine body, then run `_check_finished` — which Python only
reaches when no exception was raised before it. -/
def text_input (h : HexEditor) (rawLine : String) : HexEditor × Option PyErr :=
  match textStep h (pyLstripLower rawLine) with
  | (h1, some e) => (h1, some e)
  | (h1, none) => check_finished h1

/-- Feed a list of input lines to the editor, stopping at the first
exception (the terminal only catches `BadInput`; any other exception
would abort the game loop). -/
def runInputs (h : HexEditor) : List String → HexEditor × Option PyErr
  | [] => (h, none)
  | l :: ls =>
    match text_input h l with
    | (h1, none) => runInputs h1 ls
    | (h1, some e) => (h1, some e)

end HexEditor

/-! ## The terminal (`terminal.py`): command dispatch with dependency
gating.

Programs are registered in a string-keyed dictionary (`self._programs`),
modelled as an association list; `self._depends` likewise.  The model
tracks the scrollback buffer (`self._buf`, newest first, capacity 100),
the current-program slot, and adds a log `started` of the `start()`
calls made, since invoking `start()` is what the gating property is
about. -/

/-- The slice of a puzzle program the dispatch code reads: its
`completed()` flag, its `security_type` label and its `help` string. -/
structure TProg where
  completed : Bool
  security_type : String
  help : String
  deriving DecidableEq, Repr

/-- The slice of `Terminal` state touched by `_process_command`. -/
structure STerm where
  programs : List (String × TProg)
  depends : List (String × List String)
  buf : List String
  current_program : Option String
  started : List String
  text_colour : Int × Int × Int
  frozen : Option Int
  deriving DecidableEq, Repr

/-- Dictionary lookup, `d.get(k)` / `k in d`. -/
def dictGet {α : Type} (d : List (String × α)) (k : String) : Option α :=
  (d.find? (fun p => p.1 == k)).map (fun p => p.2)

/-- Model of `Terminal._add_to_buf`: append each line at the front of the
bounded buffer (`deque(maxlen=100)` evicts the oldest line when full). -/
def addToBuf (buf : List String) (lines : List String) : List String :=
  lines.foldl (fun b l => (l :: b).take 100) buf

namespace STerm

/-- Model of `Terminal.output`. -/
def output (t : STerm) (lines : List String) : STerm :=
  { t with buf := addToBuf t.buf lines }

/-- `self._programs[c]`, raising `KeyError` for an unregistered name. -/
def lookupProg (t : STerm) (c : String) : Except PyErr TProg :=
  match dictGet t.programs c with
  | some p => .ok p
  | none => .error .keyError

/-- Model of `Terminal._is_cmd_runnable`: collect the prerequisites whose
programs do not report completed; when there are any, output the
blocked-by line naming their `security_type` labels and answer false. -/
def is_cmd_runnable (t : STerm) (cmd : String) : Except PyErr (STerm × Bool) := do
  let blocked ←
    match dictGet t.depends cmd with
    | none => pure []
    | some ds => do
      let ps ← ds.mapM (lookupProg t)
      pure (ps.filter (fun p => !p.completed))
  if blocked.length = 0 then pure (t, true)
  else
    pure (output t [cmd ++ " currently blocked by: " ++
      String.intercalate ", " (blocked.map (fun p => p.security_type))], false)

end STerm

/-- Python `str.capitalize()`: first character uppercased, the rest
lowercased. -/
def pyCapitalize (s : String) : String :=
  match s.toList with
  | [] => ""
  | c :: cs => String.mk (c.toUpper :: cs.map Char.toLower)

/-- Pad a string with spaces to the given width (the `{:10}` format). -/
def padTo (s : String) (w : Nat) : String :=
  s ++ String.mk (List.replicate (w - s.length) ' ')

/-- Insertion sort of the registry by command name, for
`sorted(self._programs.items(), key=lambda i: i[0])`. -/
def insertByKey (x : String × TProg) :
    List (String × TProg) → List (String × TProg)
  | [] => [x]
  | y :: ys => if x.1 ≤ y.1 then x :: y :: ys else y :: insertByKey x ys

/-- Sort an association list by key. -/
def sortByKey (l : List (String × TProg)) : List (String × TProg) :=
  l.foldr insertByKey []

namespace STerm

/-- Model of `Terminal._process_command`.  A registered command is gated
by `_is_cmd_runnable`; when runnable and not yet completed its program is
started (logged in `started`), when already completed a message is shown
and the current-program slot is cleared again.  The `colour` easter egg
models the pygame render test as requiring each component in 0..255; the
`freeze` debug command stores the requested duration. -/
def process_command (t : STerm) (cmd : String) : Except PyErr STerm :=
  match dictGet t.programs cmd with
  | some prog => do
    let r ← is_cmd_runnable t cmd
    if r.2 then
      let t2 := { r.1 with current_program := some cmd }
      if prog.completed = false then
        pure { t2 with started := cmd :: t2.started }
      else
        pure { output t2 [pyCapitalize (prog.security_type ++ " already completed!")]
               with current_program := none }
    else pure r.1
  | none =>
    if cmd = "help" ∨ cmd = "?" then
      pure (output t (["Available commands:"] ++
        (sortByKey t.programs).map
          (fun p => "  " ++ padTo p.1 10 ++ "   " ++ p.2.help)))
    else if cmd.startsWith "colour " then
      let args := (cmd.splitOn " ").drop 1
      if args.length = 3 then
        match args.mapM pyParseInt with
        | none => pure (output t ["I am not familiar with that colour code."])
        | some vs =>
          if vs.all (fun v => 0 ≤ v && v < 256) then
            pure { output t ["Enjoy your new colour!"] with
                   text_colour := (vs.getD 0 0, vs.getD 1 0, vs.getD 2 0) }
          else pure (output t ["I am not familiar with that colour code."])
      else pure t
    else if cmd.startsWith "freeze " then do
      let a ← pyIdx (cmd.splitOn " ") 1
      match pyParseInt a with
      | none => pure (output t ["Invalid time"])
      | some n => pure { t with frozen := some n }
    else if cmd ≠ "" then
      pure (output t ["Unknown command \x27" ++ cmd ++ "\x27."])
    else pure t

end STerm

/-! ## The countdown timer (`terminal.py`, class `CountdownTimer`) -/

/-- The state of a `CountdownTimer`: remaining milliseconds, the epoch of
the current flash window if one is running, and the queue of warning
thresholds (in seconds) not yet consumed. -/
structure CountdownTimer where
  timeleft : Int
  flash_start : Option Int
  flash_times : List Int
  deriving DecidableEq, Repr

/-- The state established by `CountdownTimer.__init__`. -/
def CountdownTimer.init (time_in_s warning_secs : Int) : CountdownTimer :=
  { timeleft := time_in_s * 1000, flash_start := none,
    flash_times := [warning_secs, 15, 5, 4, 3, 2, 1] }

namespace CountdownTimer

/-- `self._timeleft // 1000` (Python floor division). -/
def secs_left (c : CountdownTimer) : Int := Int.fdiv c.timeleft 1000

/-- The `ended` property. -/
def ended (c : CountdownTimer) : Bool := c.timeleft ≤ 0

/-- The stripping loop of `update`: drop leading thresholds that the
current time has already reached. -/
def stripTimes (tl : Int) : List Int → List Int
  | [] => []
  | t :: rest => if Int.fdiv tl 1000 ≤ t then stripTimes tl rest else t :: rest

/-- Model of `CountdownTimer.update` (`_FLASH_TIME` is 3000 ms).  The
boolean flag reports whether this call started a new flash window (the
assignment `self._flash_start = self._timeleft` ran). -/
def updateStep (c : CountdownTimer) (ms : Int) : CountdownTimer × Bool :=
  let tl := c.timeleft - ms
  if tl ≤ 0 then
    ({ timeleft := 0, flash_start := none, flash_times := c.flash_times }, false)
  else
    let fs : Option Int :=
      match c.flash_start with
      | some s => if 3000 < s - tl then none else some s
      | none => none
    match fs with
    | some s =>
      ({ timeleft := tl, flash_start := some s, flash_times := c.flash_times }, false)
    | none =>
      match c.flash_times with
      | [] => ({ timeleft := tl, flash_start := none, flash_times := [] }, false)
      | t :: rest =>
        if Int.fdiv tl 1000 ≤ t then
          ({ timeleft := tl, flash_start := some tl,
             flash_times := stripTimes tl (t :: rest) }, true)
        else
          ({ timeleft := tl, flash_start := none, flash_times := t :: rest }, false)

/-- `update` as a plain state transformer. -/
def update (c : CountdownTimer) (ms : Int) : CountdownTimer := (updateStep c ms).1

/-- Number of flash windows started along a sequence of `update` calls. -/
def countStarts (c : CountdownTimer) : List Int → Nat
  | [] => 0
  | ms :: rest =>
    (if (updateStep c ms).2 then 1 else 0) +
      countStarts (updateStep c ms).1 rest

end CountdownTimer

/-! ## The command history (`terminal.py`, class `CommandHistory`)

The terminal's `_current_line` is folded into the state, since
`navigate` reads and writes it through `get_current_line` and
`set_current_line`.  It is an `Option` because restoring a saved line
that was never saved sets it to Python `None`. -/

/-- A `CommandHistory` (`maxlen` 50) together with the terminal input
line it manipulates. -/
structure CommandHistory where
  history : List String
  pos : Int
  saved_line : Option String
  current_line : Option String
  deriving DecidableEq, Repr

namespace CommandHistory

/-- Model of `CommandHistory.add_command`: push to the front unless it
repeats the front entry; the bounded deque drops the oldest entry. -/
def add_command (s : CommandHistory) (cmd : String) : CommandHistory :=
  if s.history.length = 0 ∨ s.history.get? 0 ≠ some cmd then
    { s with history := (cmd :: s.history).take 50 }
  else s

/-- Model of `CommandHistory.reset_navigation`. -/
def reset_navigation (s : CommandHistory) : CommandHistory :=
  { s with pos := -1 }

/-- Model of `CommandHistory.navigate`.  Moving up from the resting
position saves the current line first; moving down from position 0
restores the saved line and rests the cursor at -1. -/
def navigate (s : CommandHistory) (up : Bool) : CommandHistory :=
  if up then
    if s.pos + 1 < (s.history.length : Int) then
      let s1 := if s.pos = -1 then { s with saved_line := s.current_line } else s
      { s1 with pos := s1.pos + 1,
                current_line := s1.history.get? (s1.pos + 1).toNat }
    else s
  else
    if 0 < s.pos then
      { s with pos := s.pos - 1, current_line := s.history.get? (s.pos - 1).toNat }
    else if s.pos = 0 then
      { s with pos := -1, current_line := s.saved_line }
    else s

/-- Navigate up a number of times. -/
def upN (s : CommandHistory) : Nat → CommandHistory
  | 0 => s
  | k + 1 => upN (navigate s true) k

/-- Navigate down a number of times. -/
def downN (s : CommandHistory) : Nat → CommandHistory
  | 0 => s
  | k + 1 => downN (navigate s false) k

end CommandHistory

/-! ## Concrete states and tables used by the theorems below -/

/-- A full data-editor session: three generated rows, the player answers
no to each row and finishes with zero edits. -/
def sessionA : HexEditor × Option PyErr :=
  HexEditor.runInputs
    (HexEditor.start HexEditor.init
      [[8, 1, 2, 3, 4, 5], [9, 1, 2, 3, 4, 5], [10, 1, 2, 3, 4, 5]])
    ["n", "n", "n"]

/-- The generated table of `sessionB`. -/
def tableB : List (List Int) :=
  [[1, 2, 3, 4, 5, 6], [8, 1, 2, 3, 4, 5], [9, 1, 2, 3, 4, 5]]

/-- A partial session: the player edits cell (0, 0) of the edited table,
writing value 5. -/
def sessionB : HexEditor × Option PyErr :=
  HexEditor.runInputs (HexEditor.start HexEditor.init tableB) ["y", "0", "5"]

/-- The generated table of `sessionC`: each row starts at 7 or above,
has no zero and has exactly three odd-position cells, so each row falls
into the "no edit expected" branch of the per-row rules. -/
def tableC : List (List Int) :=
  [[9, 1, 2, 3, 4, 5], [11, 1, 2, 3, 4, 5], [13, 1, 2, 3, 4, 5]]

/-- A zero-edit session over `tableC`. -/
def sessionC : HexEditor × Option PyErr :=
  HexEditor.runInputs (HexEditor.start HexEditor.init tableC) ["n", "n", "n"]

/-- A session over a table whose first row is a "no edit expected" row,
in which the player nevertheless edits row 0 (column 1, value 2). -/
def sessionD : HexEditor × Option PyErr :=
  HexEditor.runInputs
    (HexEditor.start HexEditor.init
      [[8, 1, 2, 3, 4, 5], [9, 1, 2, 3, 4, 5], [7, 1, 2, 3, 4, 5]])
    ["y", "1", "2", "n", "n"]

/-- An editor stopped in ENTER_COL (the player answered yes for row 0 of
a freshly started table). -/
def editorColState : HexEditor :=
  (HexEditor.runInputs
    (HexEditor.start HexEditor.init
      [[2, 3, 4, 5, 6, 7], [8, 1, 2, 3, 4, 5], [9, 1, 2, 3, 4, 5]])
    ["y"]).1

/-- A freshly started editor used to instantiate the QUERY_ROW theorem. -/
def editorQueryState : HexEditor :=
  HexEditor.start HexEditor.init
    [[4, 1, 2, 3, 4, 5], [8, 1, 2, 3, 4, 5], [9, 1, 2, 3, 4, 5]]

/-- The guard of the "no edit expected" branch (x) for a row checked
against the first-branch rules (d), (e), (f) of `_data_correct`: first
cell at least 7, no zero cell, and at most three odd-position cells. -/
def noEditRow (s : List Int) : Bool :=
  match s.get? 0 with
  | some s0 =>
    decide (7 ≤ s0) && decide (s.count 0 = 0) &&
      decide ((s.enum.filter (fun p => p.1 % 2 = 1)).length ≤ 3)
  | none => false

/-- The blocked-by line `_is_cmd_runnable` outputs, given the list of
prerequisite programs: it names the `security_type` label of every one
that is not completed. -/
def blockedMsg (cmd : String) (ps : List TProg) : String :=
  cmd ++ " currently blocked by: " ++
    String.intercalate ", "
      ((ps.filter (fun p => !p.completed)).map (fun p => p.security_type))

/-- A two-program terminal: `door` depends on `lock`, which is not
completed. -/
def termDoorLock : STerm :=
  { programs := [("door", ⟨false, "software lock", "Open the door."⟩),
                 ("lock", ⟨false, "password lock", "Unlock the lock."⟩)],
    depends := [("door", ["lock"])],
    buf := [], current_program := none, started := [],
    text_colour := (20, 200, 20), frozen := none }

/-- A command history holding two commands, with a draft line typed and
the cursor at rest. -/
def historySample : CommandHistory :=
  { history := ["newer", "older"], pos := -1, saved_line := none,
    current_line := some "draft" }

/-! ## Helper lemmas -/

/-- The second statement of `_data_correct` unpacks the three-element
list `[0, 0, 0]` into four targets, so the function raises `ValueError`
on every input before examining any row. -/
theorem dataCorrect_unpack (s e : List (List Int)) :
    HexEditor.dataCorrect s e =
      .error (.valueError "not enough values to unpack") := rfl

/-- Every error produced by Python list indexing is an `IndexError`. -/
theorem pyIdx_error_eq {α : Type} (l : List α) (i : Int) (e : PyErr)
    (h : pyIdx l i = .error e) : e = .indexError := by
  unfold pyIdx at h
  split at h
  · split at h
    · exact Except.noConfusion h
    · injection h with h2
      exact h2.symm
  · injection h with h2
    exact h2.symm

/-- `rowWidth` never raises the structured bad-input signal. -/
theorem rowWidth_no_badInput (h : HexEditor) (msg : String) :
    HexEditor.rowWidth h ≠ .error (.badInput msg) := by
  intro hc
  unfold HexEditor.rowWidth at hc
  split at hc
  · rename_i e heq
    have he := pyIdx_error_eq _ _ _ heq
    subst he
    injection hc with h2
    exact PyErr.noConfusion h2
  · split at hc
    · exact Except.noConfusion hc
    · injection hc with h2
      exact PyErr.noConfusion h2

/-- `writeCell` never raises the structured bad-input signal. -/
theorem writeCell_no_badInput (h : HexEditor) (v : Int) (msg : String) :
    HexEditor.writeCell h v ≠ .error (.badInput msg) := by
  intro hc
  unfold HexEditor.writeCell at hc
  split at hc
  · rename_i e heq
    have he := pyIdx_error_eq _ _ _ heq
    subst he
    injection hc with h2
    exact PyErr.noConfusion h2
  · split at hc
    · injection hc with h2
      exact PyErr.noConfusion h2
    · split at hc
      · exact Except.noConfusion hc
      · injection hc with h2
        exact PyErr.noConfusion h2

/-- `_check_finished` never raises the structured bad-input signal (when
the row counter reaches the end it either succeeds, fails, or lets the
`ValueError` of `_data_correct` propagate). -/
theorem check_finished_no_badInput (h : HexEditor) (msg : String) :
    (HexEditor.check_finished h).2 ≠ some (PyErr.badInput msg) := by
  unfold HexEditor.check_finished
  split
  · simp [dataCorrect_unpack]
  · simp

/-! ## Claim theorems -/

/-- C1: the spec says a completed editing session (row counter reaching
the row count, state FINISHED) runs the correctness evaluation to
completion and returns a boolean verdict without an unhandled exception,
freezing on a negative verdict and setting completed on a positive one.
In the code, `_data_correct` opens with the tuple unpacking
`edits, edited_idx, edited_old, edited_new = [0, 0, 0]` of a
three-element list into four targets, so every completed session raises
an unhandled `ValueError` instead: no verdict is reached, the freeze
penalty is never invoked, no message is output, and `completed()` stays
false. -/
theorem c1_finished_session_raises_value_error :
    sessionA.1.state = HEState.FINISHED ∧
    sessionA.2 = some (PyErr.valueError "not enough values to unpack") ∧
    sessionA.1.completed = false ∧
    sessionA.1.frozen = none ∧
    sessionA.1.outputs = [] :=
  ⟨rfl, rfl, rfl, rfl, rfl⟩

/-- C2: the spec says the reference table and the edited table are
independent after `start()`.  In the code `self._end_data =
list(self._start_data)` is a shallow copy sharing the row objects, so
the ENTER_VAL write of value 5 into cell (0, 0) of the edited table also
changes cell (0, 0) of the reference table: afterwards the reference
table differs from the data generated at `start()` and is still
identical to the edited table. -/
theorem c2_reference_table_shares_rows_with_edited_table :
    sessionB.2 = none ∧
    HexEditor.readCell sessionB.1 sessionB.1.startTab 0 0 = some 5 ∧
    HexEditor.tableOf sessionB.1 sessionB.1.startTab ≠ tableB ∧
    HexEditor.tableOf sessionB.1 sessionB.1.startTab =
      HexEditor.tableOf sessionB.1 sessionB.1.endTab :=
  ⟨rfl, rfl, by decide, rfl⟩

/-- C4: the spec says a zero-edit session passes the correctness check
iff every row falls into the "no edit expected" branch.  In `sessionC`
every row satisfies that branch and the player makes zero edits, yet the
session does not pass: the check raises `ValueError` before reaching any
per-row rule, and `completed()` stays false. -/
theorem c4_zero_edit_no_edit_rows_session_does_not_pass :
    tableC.all noEditRow = true ∧
    HexEditor.tableOf sessionC.1 sessionC.1.startTab =
      HexEditor.tableOf sessionC.1 sessionC.1.endTab ∧
    sessionC.1.state = HEState.FINISHED ∧
    sessionC.2 = some (PyErr.valueError "not enough values to unpack") ∧
    sessionC.1.completed = false :=
  ⟨by decide, rfl, rfl, rfl, rfl⟩

/-- C5: the spec says the last row is accepted only if its final cell
equals the number of prior edits and the rest matches the reference.  In
the code the last-row rule is unreachable: for every pair of tables the
correctness check raises `ValueError` from its initial tuple unpacking,
so it never returns an accepting (or rejecting) verdict about any last
row. -/
theorem c5_last_row_rule_never_evaluated :
    ∀ s e : List (List Int),
      HexEditor.dataCorrect s e =
        .error (.valueError "not enough values to unpack") ∧
      ∀ b : Bool, HexEditor.dataCorrect s e ≠ .ok b := by
  intro s e
  refine ⟨rfl, ?_⟩
  intro b hb
  exact Except.noConfusion
    ((rfl :
      HexEditor.dataCorrect s e =
        .error (.valueError "not enough values to unpack")).symm.trans hb)

/-- C6: the spec says a single edit on a row in the "no edit expected"
branch makes the whole attempt fail (a false verdict, hence failure
message and freeze penalty).  In `sessionD` row 0 is such a row and the
player edits it; the code instead raises `ValueError`: no verdict, no
failure message, no freeze. -/
theorem c6_unexpected_edit_session_raises_instead_of_failing :
    noEditRow [8, 1, 2, 3, 4, 5] = true ∧
    HexEditor.readCell sessionD.1 sessionD.1.endTab 0 1 = some 2 ∧
    sessionD.1.state = HEState.FINISHED ∧
    sessionD.2 = some (PyErr.valueError "not enough values to unpack") ∧
    sessionD.1.frozen = none ∧
    sessionD.1.outputs = [] ∧
    sessionD.1.completed = false :=
  ⟨by decide, rfl, rfl, rfl, rfl, rfl, rfl⟩

/-- On a `BadInput` raise, `text_input` stops at the state-machine body:
`_check_finished` is not reached (it never raises `BadInput`). -/
theorem text_input_badInput_eq_textStep (h : HexEditor) (raw : String) (msg : String)
    (hb : (HexEditor.text_input h raw).2 = some (PyErr.badInput msg)) :
    HexEditor.text_input h raw = HexEditor.textStep h (pyLstripLower raw) := by
  unfold HexEditor.text_input at hb ⊢
  rcases hts : HexEditor.textStep h (pyLstripLower raw) with ⟨h1, _ | e⟩ <;>
    simp only [hts] at hb ⊢
  · exact absurd hb (check_finished_no_badInput h1 msg)

/-- Case analysis of the state-machine body on a `BadInput` raise: every
field except possibly the column cursor is preserved, the column cursor
is preserved on a "Not a number" raise, and on a "Column out of range"
raise it holds the successfully parsed (but rejected) column number. -/
theorem textStep_badInput (h : HexEditor) (line : String) (msg : String)
    (hb : (HexEditor.textStep h line).2 = some (PyErr.badInput msg)) :
    (HexEditor.textStep h line).1.state = h.state ∧
    (HexEditor.textStep h line).1.row = h.row ∧
    (HexEditor.textStep h line).1.heap = h.heap ∧
    (HexEditor.textStep h line).1.startTab = h.startTab ∧
    (HexEditor.textStep h line).1.endTab = h.endTab ∧
    (HexEditor.textStep h line).1.completed = h.completed ∧
    (HexEditor.textStep h line).1.outputs = h.outputs ∧
    (HexEditor.textStep h line).1.frozen = h.frozen ∧
    (msg = "Not a number" → (HexEditor.textStep h line).1.col = h.col) ∧
    (msg = "Column out of range" →
      pyParseInt line = some ((HexEditor.textStep h line).1.col)) := by
  unfold HexEditor.textStep at hb ⊢
  split at hb <;> rename_i heq <;> simp only [heq]
  case _ =>
    exfalso
    split at hb <;> simp at hb
  case _ =>
    rcases hp : pyParseInt line with _ | n <;> simp only [hp] at hb ⊢
    · simp at hb
      subst hb
      simp [heq]
    · split at hb
      · rename_i hneg
        simp at hb
        subst hb
        simp only [if_pos hneg]
        simp [hp, heq]
      · rename_i hneg
        split at hb
        · rename_i e heqr
          exfalso
          simp at hb
          subst hb
          exact absurd heqr (rowWidth_no_badInput _ _)
        · rename_i w heqr
          split at hb
          · rename_i hle
            simp at hb
            subst hb
            simp only [heq] at heqr
            simp only [if_neg hneg, heqr, if_pos hle]
            simp [hp, heq]
          · simp at hb
  case _ =>
    split at hb
    · simp at hb
    · rename_i hline
      simp only [if_neg hline]
      rcases hp : pyParseHex line with _ | v <;> simp only [hp] at hb ⊢
      · simp at hb
        subst hb
        simp [heq]
      · split at hb
        · rename_i e heqw
          exfalso
          simp at hb
          subst hb
          exact absurd heqw (writeCell_no_badInput _ _ _)
        · simp at hb
  case _ =>
    simp at hb

/-- C3 counterexample: with the editor in ENTER_COL (column cursor 0,
six columns), the input line 10 makes `text_input` raise the structured
bad-input signal "Column out of range", but the program state after the
call differs from the state before it: the column cursor was assigned 10
before the range check raised. -/
theorem c3_counterexample_col_mutated_on_bad_input :
    (HexEditor.text_input editorColState "10").2 =
      some (PyErr.badInput "Column out of range") ∧
    editorColState.col = 0 ∧
    (HexEditor.text_input editorColState "10").1.col = 10 ∧
    (HexEditor.text_input editorColState "10").1 ≠ editorColState :=
  ⟨rfl, rfl, rfl, by decide⟩

/-- C3 (amended): on every input line on which `text_input` raises the
structured bad-input signal, the state-machine stage, row cursor, row
heap, reference table, edited table, completion flag, outputs and freeze
state are exactly as before the call; the column cursor too is unchanged
on "Not a number" raises, but on a "Column out of range" raise it holds
the parsed out-of-range number. -/
theorem c3_bad_input_preserves_state_except_column
    (h : HexEditor) (line : String) (msg : String)
    (hb : (HexEditor.text_input h line).2 = some (PyErr.badInput msg)) :
    (HexEditor.text_input h line).1.state = h.state ∧
    (HexEditor.text_input h line).1.row = h.row ∧
    (HexEditor.text_input h line).1.heap = h.heap ∧
    (HexEditor.text_input h line).1.startTab = h.startTab ∧
    (HexEditor.text_input h line).1.endTab = h.endTab ∧
    (HexEditor.text_input h line).1.completed = h.completed ∧
    (HexEditor.text_input h line).1.outputs = h.outputs ∧
    (HexEditor.text_input h line).1.frozen = h.frozen ∧
    (msg = "Not a number" → (HexEditor.text_input h line).1.col = h.col) ∧
    (msg = "Column out of range" →
      pyParseInt (pyLstripLower line) = some ((HexEditor.text_input h line).1.col)) := by
  have hlift := text_input_badInput_eq_textStep h line msg hb
  rw [hlift] at hb ⊢
  exact textStep_badInput h (pyLstripLower line) msg hb

/-- C3 witness: the amended theorem applied to the concrete ENTER_COL
editor and the out-of-range line 7. -/
theorem c3_amended_witness :
    (HexEditor.text_input editorColState "7").2 =
      some (PyErr.badInput "Column out of range") ∧
    ((HexEditor.text_input editorColState "7").1.state = editorColState.state ∧
     (HexEditor.text_input editorColState "7").1.row = editorColState.row ∧
     (HexEditor.text_input editorColState "7").1.heap = editorColState.heap ∧
     (HexEditor.text_input editorColState "7").1.startTab = editorColState.startTab ∧
     (HexEditor.text_input editorColState "7").1.endTab = editorColState.endTab ∧
     (HexEditor.text_input editorColState "7").1.completed = editorColState.completed ∧
     (HexEditor.text_input editorColState "7").1.outputs = editorColState.outputs ∧
     (HexEditor.text_input editorColState "7").1.frozen = editorColState.frozen ∧
     ("Column out of range" = "Not a number" →
       (HexEditor.text_input editorColState "7").1.col = editorColState.col) ∧
     ("Column out of range" = "Column out of range" →
       pyParseInt (pyLstripLower "7") =
         some ((HexEditor.text_input editorColState "7").1.col))) :=
  ⟨rfl, c3_bad_input_preserves_state_except_column editorColState "7"
    "Column out of range" rfl⟩

/-- `_check_finished` never changes the row counter. -/
theorem check_finished_row (h : HexEditor) :
    (HexEditor.check_finished h).1.row = h.row := by
  unfold HexEditor.check_finished
  split
  · simp [dataCorrect_unpack]
  · rfl

/-- `_check_finished` moves to FINISHED exactly when the row counter has
reached the row count, and otherwise leaves the stage alone. -/
theorem check_finished_state (h : HexEditor) :
    (HexEditor.check_finished h).1.state =
      (if h.row = h.startTab.length then HEState.FINISHED else h.state) := by
  unfold HexEditor.check_finished
  split <;> rename_i hr
  · simp [dataCorrect_unpack, hr]
  · simp [hr]

/-- C10: in QUERY_ROW, an input line whose stripped-and-lowercased form
does not start with the character y — the empty line and unrecognized
text included — is treated as a no: the row cursor advances by one and
no bad-input signal is raised; a line starting with y (case-insensitive,
after stripping) keeps the row cursor and moves the stage to ENTER_COL
(or FINISHED in the degenerate case where the row counter already equals
the row count). -/
theorem c10_non_yes_advances_row (h : HexEditor) (line : String)
    (hq : h.state = HEState.QUERY_ROW) :
    (HexEditor.startsWithY (pyLstripLower line) = false →
      (HexEditor.text_input h line).1.row = h.row + 1 ∧
      ∀ msg, (HexEditor.text_input h line).2 ≠ some (PyErr.badInput msg)) ∧
    (HexEditor.startsWithY (pyLstripLower line) = true →
      (HexEditor.text_input h line).1.row = h.row ∧
      (HexEditor.text_input h line).1.state =
        (if h.row = h.startTab.length then HEState.FINISHED
         else HEState.ENTER_COL)) := by
  have hts : HexEditor.textStep h (pyLstripLower line) =
      (if HexEditor.startsWithY (pyLstripLower line) then
        ({ h with state := .ENTER_COL }, none)
      else ({ h with row := h.row + 1 }, none)) := by
    simp only [HexEditor.textStep, hq]
  constructor
  · intro hsw
    have h2 : HexEditor.text_input h line =
        HexEditor.check_finished { h with row := h.row + 1 } := by
      unfold HexEditor.text_input
      rw [hts, hsw]
      simp
    rw [h2]
    exact ⟨by rw [check_finished_row], fun msg => check_finished_no_badInput _ msg⟩
  · intro hsw
    have h2 : HexEditor.text_input h line =
        HexEditor.check_finished { h with state := .ENTER_COL } := by
      unfold HexEditor.text_input
      rw [hts, hsw]
      simp
    rw [h2]
    refine ⟨by rw [check_finished_row], ?_⟩
    rw [check_finished_state]

/-- C10 witness: the QUERY_ROW theorem applied to a freshly started
editor and the line "nope". -/
theorem c10_witness :
    editorQueryState.state = HEState.QUERY_ROW ∧
    ((HexEditor.startsWithY (pyLstripLower "nope") = false →
      (HexEditor.text_input editorQueryState "nope").1.row =
        editorQueryState.row + 1 ∧
      ∀ msg, (HexEditor.text_input editorQueryState "nope").2 ≠
        some (PyErr.badInput msg)) ∧
    (HexEditor.startsWithY (pyLstripLower "nope") = true →
      (HexEditor.text_input editorQueryState "nope").1.row =
        editorQueryState.row ∧
      (HexEditor.text_input editorQueryState "nope").1.state =
        (if editorQueryState.row = editorQueryState.startTab.length then
          HEState.FINISHED
         else HEState.ENTER_COL))) :=
  ⟨rfl, c10_non_yes_advances_row editorQueryState "nope" rfl⟩

/-- C7: a registered command with at least one prerequisite whose program
is not completed never invokes `start()` on its program (the `started`
log and current-program slot are untouched) and outputs the blocked-by
line naming the `security_type` label of every unmet prerequisite. -/
theorem c7_blocked_command_never_started
    (t : STerm) (cmd : String) (prog : TProg) (ds : List String) (ps : List TProg)
    (hc : dictGet t.programs cmd = some prog)
    (hd : dictGet t.depends cmd = some ds)
    (hm : ds.mapM (STerm.lookupProg t) = Except.ok ps)
    (hun : ps.filter (fun p => !p.completed) ≠ []) :
    STerm.process_command t cmd = Except.ok (STerm.output t [blockedMsg cmd ps]) ∧
    (STerm.output t [blockedMsg cmd ps]).started = t.started ∧
    (STerm.output t [blockedMsg cmd ps]).current_program = t.current_program := by
  have hlen : ¬((ps.filter (fun p => !p.completed)).length = 0) := by
    simpa [List.length_eq_zero] using hun
  have hrun : STerm.is_cmd_runnable t cmd =
      Except.ok (STerm.output t [blockedMsg cmd ps], false) := by
    unfold STerm.is_cmd_runnable
    rw [hd]
    dsimp only
    rw [hm]
    dsimp only [Bind.bind, Except.bind, Pure.pure, Except.pure]
    rw [if_neg hlen]
    rfl
  unfold STerm.process_command
  rw [hc]
  dsimp only
  rw [hrun]
  dsimp only [Bind.bind, Except.bind, Pure.pure, Except.pure]
  exact ⟨rfl, rfl, rfl⟩

/-- C7 witness: the gating theorem applied to the two-program terminal in
which `door` is blocked by the uncompleted `lock`. -/
theorem c7_witness :
    dictGet termDoorLock.programs "door" =
      some ⟨false, "software lock", "Open the door."⟩ ∧
    dictGet termDoorLock.depends "door" = some ["lock"] ∧
    (["lock"].mapM (STerm.lookupProg termDoorLock) =
      Except.ok [⟨false, "password lock", "Unlock the lock."⟩]) ∧
    (([(⟨false, "password lock", "Unlock the lock."⟩ : TProg)].filter
        (fun p => !p.completed)) ≠ []) ∧
    (STerm.process_command termDoorLock "door" =
      Except.ok (STerm.output termDoorLock
        [blockedMsg "door" [⟨false, "password lock", "Unlock the lock."⟩]]) ∧
     (STerm.output termDoorLock
        [blockedMsg "door" [⟨false, "password lock", "Unlock the lock."⟩]]).started =
       termDoorLock.started ∧
     (STerm.output termDoorLock
        [blockedMsg "door" [⟨false, "password lock", "Unlock the lock."⟩]]).current_program =
       termDoorLock.current_program) :=
  ⟨rfl, rfl, rfl, by decide,
   c7_blocked_command_never_started termDoorLock "door" _ _ _ rfl rfl rfl (by decide)⟩

/-- The stripping loop only removes leading thresholds: its result is a
suffix of its input. -/
theorem stripTimes_suffix (tl : Int) (l : List Int) :
    List.IsSuffix (CountdownTimer.stripTimes tl l) l := by
  induction l with
  | nil => exact List.suffix_refl _
  | cons t rest ih =>
    unfold CountdownTimer.stripTimes
    split
    · exact ih.trans (List.suffix_cons t rest)
    · exact List.suffix_refl _

/-- The stripping loop never lengthens the threshold queue. -/
theorem stripTimes_length_le (tl : Int) (l : List Int) :
    (CountdownTimer.stripTimes tl l).length ≤ l.length :=
  (stripTimes_suffix tl l).length_le

/-- One `update` call: starting a flash window strictly shrinks the
threshold queue, not starting one leaves it unchanged, and in either
case the new queue is a suffix of the old. -/
theorem updateStep_flash_times (c : CountdownTimer) (ms : Int) :
    ((CountdownTimer.updateStep c ms).2 = true →
      ((CountdownTimer.updateStep c ms).1.flash_times).length <
        c.flash_times.length) ∧
    ((CountdownTimer.updateStep c ms).2 = false →
      (CountdownTimer.updateStep c ms).1.flash_times = c.flash_times) ∧
    List.IsSuffix ((CountdownTimer.updateStep c ms).1.flash_times)
      c.flash_times := by
  unfold CountdownTimer.updateStep
  dsimp only
  split
  · exact ⟨by simp, fun _ => rfl, List.suffix_refl _⟩
  · split
    · exact ⟨by simp, fun _ => rfl, List.suffix_refl _⟩
    · split
      · rename_i heq
        exact ⟨by simp, fun _ => by rw [heq], by rw [heq]⟩
      · rename_i t rest heq
        split
        · rename_i hcond
          refine ⟨fun _ => ?_, by simp, ?_⟩
          · rw [heq]
            have h1 : CountdownTimer.stripTimes (c.timeleft - ms) (t :: rest) =
                CountdownTimer.stripTimes (c.timeleft - ms) rest := by
              rw [CountdownTimer.stripTimes, if_pos hcond]
            dsimp only
            rw [h1]
            exact Nat.lt_succ_of_le (stripTimes_length_le _ _)
          · rw [heq]
            dsimp only
            exact stripTimes_suffix _ _
        · exact ⟨by simp, fun _ => by rw [heq], by rw [heq]⟩

/-- Along any sequence of `update` calls, at most one flash window can
start per threshold initially in the queue. -/
theorem countStarts_le (l : List Int) : ∀ c : CountdownTimer,
    CountdownTimer.countStarts c l ≤ c.flash_times.length := by
  induction l with
  | nil =>
    intro c
    exact Nat.zero_le _
  | cons ms rest ih =>
    intro c
    unfold CountdownTimer.countStarts
    have h1 := ih (CountdownTimer.updateStep c ms).1
    have h2 := updateStep_flash_times c ms
    rcases hb : (CountdownTimer.updateStep c ms).2 with _ | _
    · have h3 := congrArg List.length (h2.2.1 hb)
      simp
      omega
    · have h3 := h2.1 hb
      simp
      omega

/-- C8: over any sequence of `update` calls with nonnegative elapsed
milliseconds, the number of flash windows started never exceeds the
number of thresholds initially queued (so each threshold starts at most
one window — every start consumes at least its own threshold, and the
queue only ever shrinks to a suffix of itself); in particular once the
queue is exhausted no flash window is ever started again. -/
theorem c8_thresholds_fire_at_most_once (c : CountdownTimer) (msList : List Int)
    (_hpos : ∀ ms ∈ msList, 0 ≤ ms) :
    CountdownTimer.countStarts c msList ≤ c.flash_times.length ∧
    (c.flash_times = [] → CountdownTimer.countStarts c msList = 0) ∧
    ∀ ms : Int, List.IsSuffix ((CountdownTimer.update c ms).flash_times)
      c.flash_times := by
  refine ⟨countStarts_le msList c, ?_, fun ms => (updateStep_flash_times c ms).2.2⟩
  intro h0
  have hle := countStarts_le msList c
  rw [h0] at hle
  simpa using hle

/-- From cursor position n, n+1 downward navigations rest the cursor at
-1 and set the input line to the saved draft. -/
theorem navigate_down_steps : ∀ (n : Nat) (s : CommandHistory),
    s.pos = (n : Int) →
    (CommandHistory.downN s (n + 1)).pos = -1 ∧
    (CommandHistory.downN s (n + 1)).current_line = s.saved_line := by
  intro n
  induction n with
  | zero =>
    intro s hp
    simp [CommandHistory.downN, CommandHistory.navigate, hp]
  | succ k ih =>
    intro s hp
    have h0 : (0 : Int) < s.pos := by
      rw [hp]
      exact_mod_cast Nat.succ_pos k
    have hnav : CommandHistory.navigate s false =
        { s with pos := s.pos - 1,
                 current_line := s.history.get? (s.pos - 1).toNat } := by
      unfold CommandHistory.navigate
      simp [h0]
    have hpos2 : (CommandHistory.navigate s false).pos = (k : Int) := by
      rw [hnav]
      dsimp only
      rw [hp]
      push_cast
      ring
    have hstep := ih (CommandHistory.navigate s false) hpos2
    have hdn : CommandHistory.downN s (k + 1 + 1) =
        CommandHistory.downN (CommandHistory.navigate s false) (k + 1) := rfl
    rw [hdn]
    refine ⟨hstep.1, ?_⟩
    rw [hstep.2, hnav]

/-- While navigating (cursor at 0 or above), further upward navigations
keep the cursor at 0 or above and never touch the saved draft or the
history. -/
theorem navigate_up_keeps : ∀ (k : Nat) (s : CommandHistory), 0 ≤ s.pos →
    0 ≤ (CommandHistory.upN s k).pos ∧
    (CommandHistory.upN s k).saved_line = s.saved_line ∧
    (CommandHistory.upN s k).history = s.history := by
  intro k
  induction k with
  | zero => exact fun s hs => ⟨hs, rfl, rfl⟩
  | succ k ih =>
    intro s hs
    have hne : ¬(s.pos = -1) := by omega
    have hup : CommandHistory.upN s (k + 1) =
        CommandHistory.upN (CommandHistory.navigate s true) k := rfl
    rw [hup]
    by_cases hlt : s.pos + 1 < (s.history.length : Int)
    · have hnav : CommandHistory.navigate s true =
          { s with pos := s.pos + 1,
                   current_line := s.history.get? (s.pos + 1).toNat } := by
        unfold CommandHistory.navigate
        simp [hlt, hne]
      rw [hnav]
      have hkeep := ih
        { s with pos := s.pos + 1,
                 current_line := s.history.get? (s.pos + 1).toNat }
        (by dsimp only; omega)
      exact ⟨hkeep.1, hkeep.2.1, hkeep.2.2⟩
    · have hnav : CommandHistory.navigate s true = s := by
        unfold CommandHistory.navigate
        simp [hlt]
      rw [hnav]
      exact ih s hs

/-- Navigating up any number of times from the resting cursor either
does nothing at all (empty history or zero steps) or leaves the cursor
at 0 or above with the pre-navigation line saved as the draft. -/
theorem navigate_up_inv : ∀ (k : Nat) (s : CommandHistory), s.pos = -1 →
    CommandHistory.upN s k = s ∨
    (0 ≤ (CommandHistory.upN s k).pos ∧
     (CommandHistory.upN s k).saved_line = s.current_line) := by
  intro k
  induction k with
  | zero => exact fun s _ => Or.inl rfl
  | succ k ih =>
    intro s hs
    have hup : CommandHistory.upN s (k + 1) =
        CommandHistory.upN (CommandHistory.navigate s true) k := rfl
    by_cases hlt : s.pos + 1 < (s.history.length : Int)
    · have hlen : (0 : Int) < (s.history.length : Int) := by omega
      have hnav : CommandHistory.navigate s true =
          { s with saved_line := s.current_line, pos := s.pos + 1,
                   current_line := s.history.get? (s.pos + 1).toNat } := by
        unfold CommandHistory.navigate
        simp [hlt, hs, hlen]
      right
      rw [hup, hnav]
      have hkeep := navigate_up_keeps k
        { s with saved_line := s.current_line, pos := s.pos + 1,
                 current_line := s.history.get? (s.pos + 1).toNat }
        (by dsimp only; omega)
      exact ⟨hkeep.1, by rw [hkeep.2.1]⟩
    · have hnav : CommandHistory.navigate s true = s := by
        unfold CommandHistory.navigate
        simp [hlt]
      rw [hup, hnav]
      exact ih s hs

/-- C9: from a command-history state with the cursor at "not navigating"
(-1), navigating up any number of times and then down until the cursor
rests again leaves the terminal input line exactly equal to the
pre-navigation line. -/
theorem c9_up_then_down_restores_draft (s : CommandHistory) (k : Nat)
    (hrest : s.pos = -1) :
    ∃ m : Nat,
      (CommandHistory.downN (CommandHistory.upN s k) m).pos = -1 ∧
      (CommandHistory.downN (CommandHistory.upN s k) m).current_line =
        s.current_line := by
  rcases navigate_up_inv k s hrest with heq | ⟨hge, hsav⟩
  · refine ⟨0, ?_, ?_⟩ <;>
      rw [show CommandHistory.downN (CommandHistory.upN s k) 0 =
            CommandHistory.upN s k from rfl, heq]
    · exact hrest
  · refine ⟨(CommandHistory.upN s k).pos.toNat + 1, ?_, ?_⟩
    all_goals
      have hp : (CommandHistory.upN s k).pos =
          ((CommandHistory.upN s k).pos.toNat : Int) :=
        (Int.toNat_of_nonneg hge).symm
      have hh := navigate_down_steps (CommandHistory.upN s k).pos.toNat
        (CommandHistory.upN s k) hp
    · exact hh.1
    · rw [hh.2, hsav]

/-- C8 witness: the flash-count bound applied to a fresh 300-second timer
(warning mark 30) and a concrete sequence of nonnegative updates. -/
theorem c8_witness :
    (∀ ms ∈ [(270000 : Int), 15000, 1000], 0 ≤ ms) ∧
    (CountdownTimer.countStarts (CountdownTimer.init 300 30)
        [270000, 15000, 1000] ≤
      (CountdownTimer.init 300 30).flash_times.length ∧
    ((CountdownTimer.init 300 30).flash_times = [] →
      CountdownTimer.countStarts (CountdownTimer.init 300 30)
        [270000, 15000, 1000] = 0) ∧
    ∀ ms : Int, List.IsSuffix
      ((CountdownTimer.update (CountdownTimer.init 300 30) ms).flash_times)
      (CountdownTimer.init 300 30).flash_times) :=
  ⟨by decide, c8_thresholds_fire_at_most_once _ _ (by decide)⟩

/-- C9 witness: the restore theorem applied to a two-entry history with a
typed draft line and three upward navigations. -/
theorem c9_witness :
    historySample.pos = -1 ∧
    ∃ m : Nat,
      (CommandHistory.downN (CommandHistory.upN historySample 3) m).pos = -1 ∧
      (CommandHistory.downN (CommandHistory.upN historySample 3) m).current_line =
        historySample.current_line :=
  ⟨rfl, c9_up_then_down_restores_draft historySample 3 rfl⟩
